import Mathlib

/-!
Verification development for the KnowYourFacts transcript-acquisition
pipeline (src/app.py).  The Python source is shallowly embedded: pure
helpers become Lean functions, the module-level mutable state
(transcript cache, negative failure cache, single-flight lock, request
counter) becomes an explicit `AppState` record threaded through
`run_pipeline`, wall-clock time is an explicit rational parameter, and
the two network collaborators (the YouTube captions service and the
OpenAI call) become oracle parameters.  Fallible Python code is embedded
with `Except`: an `Except.error` models an uncaught Python exception.

All string manipulation is done by structural recursion over `List Char`
so that every definition evaluates inside the kernel (`decide`/`rfl`).
-/

instance {α β : Type} [DecidableEq α] [DecidableEq β] : DecidableEq (Except α β)
  | .ok x, .ok y =>
    if h : x = y then .isTrue (h ▸ rfl) else .isFalse fun hc => h (Except.ok.inj hc)
  | .error x, .error y =>
    if h : x = y then .isTrue (h ▸ rfl) else .isFalse fun hc => h (Except.error.inj hc)
  | .ok _, .error _ => .isFalse nofun
  | .error _, .ok _ => .isFalse nofun

/-! ## String primitives (kernel-computable models of the Python string
operations used by app.py) -/

/-- Python `s.split(sep)` for a one-character separator: splits on every
occurrence and keeps empty pieces. -/
def chSplitOnChar (sep : Char) : List Char → List (List Char)
  | [] => [[]]
  | c :: cs =>
    if c == sep then [] :: chSplitOnChar sep cs
    else match chSplitOnChar sep cs with
      | [] => [[c]]
      | g :: gs => (c :: g) :: gs

/-- Split a character list at the first occurrence of `sep`; `none`
when `sep` does not occur.  Mirrors Python `s.split(sep, 1)`. -/
def splitFirst (sep : Char) : List Char → Option (List Char × List Char)
  | [] => none
  | c :: cs =>
    if c == sep then some ([], cs)
    else match splitFirst sep cs with
      | none => none
      | some (l, r) => some (c :: l, r)

/-- Python `needle in hay` (substring containment). -/
def chInfix (needle : List Char) : List Char → Bool
  | [] => needle.isEmpty
  | c :: cs => needle.isPrefixOf (c :: cs) || chInfix needle cs

/-- Python `s.startswith(pre)`. -/
def strStartsWith (s pre : String) : Bool :=
  pre.data.isPrefixOf s.data

/-- Python `needle in hay` on `String`. -/
def strContains (needle hay : String) : Bool :=
  chInfix needle.data hay.data

/-- Python `s.split(sep)` on `String`, one-character separator. -/
def strSplitOnChar (sep : Char) (s : String) : List String :=
  (chSplitOnChar sep s.data).map String.mk

/-- Python `s.lower()` (ASCII; the hosts compared in app.py are ASCII). -/
def strToLower (s : String) : String :=
  String.mk (s.data.map Char.toLower)

/-! ## Model of `urllib.parse` as used by app.py

`is_valid_youtube_url` and `get_video_id` call `urlparse` and
`parse_qs`.  The embedding follows CPython's `urlsplit`: control
characters (tab, CR, LF) are removed; a scheme is split off before the
first colon when the prefix is an ASCII letter followed by ASCII
letters, digits, `+`, `-` or `.`, and is lowercased; a netloc is taken
after a leading `//` up to the first `/`, `?` or `#`; `urlsplit` raises
`ValueError` ("Invalid IPv6 URL") when the netloc contains `[` without
`]` or vice versa; the fragment is split at the first `#` and the query
at the first `?`; `urlparse` additionally strips path parameters (a `;`
suffix of the last path segment).  Percent-decoding of query values and
the host-character checks of newer CPython are not modelled; no URL
appearing in a concrete theorem below uses them. -/

structure UrlParts where
  scheme : String
  netloc : String
  path : String
  query : String
  fragment : String
deriving Repr, DecidableEq

/-- Characters allowed in a URL scheme after the leading letter
(CPython `scheme_chars`). -/
def schemeChar (c : Char) : Bool :=
  c.isAlphanum || c == '+' || c == '-' || c == '.'

/-- Remove the characters CPython strips from a URL before parsing. -/
def stripUnsafe (url : List Char) : List Char :=
  url.filter fun c => !(c == '\t' || c == '\r' || c == '\n')

/-- Split off the scheme, as CPython `urlsplit` does: the part before
the first `:` must start with an ASCII letter and consist of scheme
characters; the scheme is lowercased. -/
def splitScheme (url : List Char) : List Char × List Char :=
  match splitFirst ':' url with
  | none => ([], url)
  | some (pre, rest) =>
    match pre with
    | [] => ([], url)
    | c0 :: _ =>
      if c0.isAlpha && pre.all schemeChar then
        (pre.map Char.toLower, rest)
      else ([], url)

/-- CPython `_splitnetloc`: the netloc runs up to the first `/`, `?`
or `#`. -/
def splitNetloc (s : List Char) : List Char × List Char :=
  let netloc := s.takeWhile fun c => !(c == '/' || c == '?' || c == '#')
  (netloc, s.drop netloc.length)

/-- CPython `urlparse` drops path parameters: when the final `/`-segment
of the path contains a `;`, the path is truncated at that `;` (a `;`
only before the last `/` is kept). -/
def dropParams (path : List Char) : List Char :=
  if path.contains ';' then
    if path.contains '/' then
      let segs := chSplitOnChar '/' path
      let last := segs.getLastD []
      match splitFirst ';' last with
      | none => path
      | some (pre, _) => List.intercalate ['/'] (segs.dropLast ++ [pre])
    else
      match splitFirst ';' path with
      | none => path
      | some (pre, _) => pre
  else path

/-- Model of `urllib.parse.urlparse` restricted to the behaviour app.py
relies on.  `Except.error` models the `ValueError` CPython raises on a
netloc with unbalanced square brackets. -/
def urlparse (url : String) : Except String UrlParts :=
  let u0 := stripUnsafe url.data
  let (scheme, u1) := splitScheme u0
  let (netloc, u2) :=
    match u1 with
    | '/' :: '/' :: rest => splitNetloc rest
    | _ => ([], u1)
  if (netloc.contains '[' && !netloc.contains ']')
      || (netloc.contains ']' && !netloc.contains '[') then
    .error "Invalid IPv6 URL"
  else
    let (u3, fragment) :=
      match splitFirst '#' u2 with
      | none => (u2, [])
      | some (l, r) => (l, r)
    let (path, query) :=
      match splitFirst '?' u3 with
      | none => (u3, [])
      | some (l, r) => (l, r)
    .ok { scheme := String.mk scheme
          netloc := String.mk netloc
          path := String.mk (dropParams path)
          query := String.mk query
          fragment := String.mk fragment }

/-- Model of `urllib.parse.parse_qsl` with default arguments: fields are
split on `&`; empty fields are skipped; a field without `=` is skipped;
a field with an empty value is skipped (`keep_blank_values=False`);
`+` becomes a space.  Percent-decoding is not modelled (see above). -/
def parse_qsl (qs : String) : List (String × String) :=
  (chSplitOnChar '&' qs.data).filterMap fun nv =>
    if nv.isEmpty then none
    else match splitFirst '=' nv with
      | none => none
      | some (n, v) =>
        if v.isEmpty then none
        else some (String.mk (n.map fun c => if c == '+' then ' ' else c),
                   String.mk (v.map fun c => if c == '+' then ' ' else c))

/-- `parse_qs(qs)[key]`: the list of values bound to `key`, in order.
`key ∈ parse_qs(qs)` holds exactly when this list is nonempty. -/
def parse_qs_get (qs key : String) : List String :=
  (parse_qsl qs).filterMap fun p => if p.1 = key then some p.2 else none

/-! ## URL Validator / ID Extractor (app.py lines 58-97) -/

/-- Embedding of `is_valid_youtube_url` (app.py lines 58-81).  The
surrounding `try/except` maps any parse error to `False`. -/
def is_valid_youtube_url (url : String) : Bool :=
  if url = "" then false
  else match urlparse url with
    | .error _ => false
    | .ok p =>
      if !(p.scheme == "http" || p.scheme == "https") then false
      else
        let host := strToLower p.netloc
        let path := p.path
        if strContains "youtube.com" host then
          if strStartsWith path "/watch" then
            let vs := parse_qs_get p.query "v"
            !vs.isEmpty && decide ((vs.headD "").length > 5)
          else if strStartsWith path "/shorts/"
              && decide (((strSplitOnChar '/' path).getD 2 "").length ≥ 5) then
            true
          else if strStartsWith path "/live/"
              && decide (((strSplitOnChar '/' path).getD 2 "").length ≥ 5) then
            true
          else false
        else if strContains "youtu.be" host then
          let parts := (strSplitOnChar '/' path).filter (· ≠ "")
          decide (parts.length = 1) && decide ((parts.headD "").length ≥ 5)
        else false

/-- Embedding of `get_video_id` (app.py lines 83-97).  Unlike the
validator it has no `try/except`, so a `ValueError` from `urlparse`
propagates (modelled by `Except.error`).  In the `/shorts/` and
`/live/` branches the `startswith` guard guarantees that the third
`/`-segment exists, so the Python index `[2]` cannot fail there. -/
def get_video_id (url : String) : Except String (Option String) :=
  match urlparse url with
  | .error e => .error e
  | .ok p =>
    let host := strToLower p.netloc
    let path := p.path
    if strContains "youtube.com" host && strStartsWith path "/watch" then
      .ok (parse_qs_get p.query "v").head?
    else if strContains "youtu.be" host then
      .ok ((strSplitOnChar '/' path).filter (· ≠ "")).head?
    else if strContains "youtube.com" host && strStartsWith path "/shorts/" then
      .ok (some ((strSplitOnChar '/' path).getD 2 ""))
    else if strContains "youtube.com" host && strStartsWith path "/live/" then
      .ok (some ((strSplitOnChar '/' path).getD 2 ""))
    else .ok none


/-! ## Caption Fetcher (app.py lines 176-229)

One physical request to the captions service is modelled by one value
of `FetchOutcome`: either the list of caption chunk texts the upstream
returned, or the exception class it raised.  An oracle `Nat →
FetchOutcome` gives the outcome of each attempt number.  Sleeps,
jitter and the rate-limiter timestamp are timing-only and do not
affect the data flow; the number of physical requests is tracked
explicitly. -/

inductive FetchOutcome
  | success (chunks : List String)
  | noTranscriptFound (msg : String)
  | transcriptsDisabled (msg : String)
  | ipBlocked (msg : String)
  | requestBlocked (msg : String)
  | youtubeRequestFailed (msg : String)
  | otherError (msg : String)
deriving Repr, DecidableEq

/-- Return value of `fetch_with_retry`: a normal return is the 3-tuple
`(text, lang, message)` of app.py line 196/198/200; the two `raise`
sites become the two error constructors. -/
inductive FetchResult
  | ok (text lang msg : Option String)
  | rateLimitError (msg : String)
  | runtimeError (msg : String)
deriving Repr, DecidableEq

/-- Python `s.strip()` (the four ASCII whitespace characters). -/
def chStrip (l : List Char) : List Char :=
  ((l.dropWhile Char.isWhitespace).reverse.dropWhile Char.isWhitespace).reverse

/-- `fetch_captions_once` (app.py lines 176-182): join the non-empty
chunk texts with spaces and strip.  The language is always `None`
("Sprache ist hier nicht sicher bestimmbar"). -/
def fetch_captions_once (chunks : List String) : String :=
  String.mk (chStrip (List.intercalate [' '] ((chunks.filter (· ≠ "")).map String.data)))

def noTranscriptDeliveredMsg : String :=
  "Keine Untertitel wurden von YouTube geliefert."

def rateLimitRaiseMsg : String :=
  "YouTube hat den Abruf stark gedrosselt. Bitte mindestens 15 Minuten warten und erneut versuchen."

/-- Message of the `RuntimeError` raised after exhausting all tries
(app.py lines 227-229); `none` prints as Python `None`. -/
def failAfterMsg (maxTries : Nat) (lastErr : Option String) : String :=
  "Transcript fetch failed after " ++ toString maxTries ++ " tries. Last error: "
    ++ lastErr.getD "None"

/-- One step of classification: does this upstream response definitively
report that no transcript exists (`NoTranscriptFound`,
`TranscriptsDisabled`, or a transcript that joins to the empty
string)? -/
def classifiedNoTranscript : FetchOutcome → Bool
  | .success chunks => fetch_captions_once chunks = ""
  | .noTranscriptFound _ => true
  | .transcriptsDisabled _ => true
  | _ => false

/-- The retry loop of `fetch_with_retry` (app.py lines 191-229) over
the list of remaining attempt numbers (`range(1, max_tries + 1)`).
Returns the result together with the number of physical requests made.
An empty list means the `for` loop ended without returning: app.py
line 227 raises `RuntimeError`.  On `IpBlocked`/`RequestBlocked` the
loop retries while `attempt < max_tries` and otherwise raises
`RateLimitError`; on `YouTubeRequestFailed` or any other exception it
retries while `attempt < max_tries` and otherwise falls out of the
loop. -/
def fetchLoop (oracle : Nat → FetchOutcome) (maxTries : Nat) :
    List Nat → Option String → FetchResult × Nat
  | [], lastErr => (.runtimeError (failAfterMsg maxTries lastErr), 0)
  | attempt :: rest, _ =>
    match oracle attempt with
    | .success chunks =>
      let text := fetch_captions_once chunks
      if text ≠ "" then (.ok (some text) none none, 1)
      else (.ok none none (some noTranscriptDeliveredMsg), 1)
    | .noTranscriptFound m => (.ok none none (some ("NoTranscriptFound: " ++ m)), 1)
    | .transcriptsDisabled m => (.ok none none (some ("TranscriptsDisabled: " ++ m)), 1)
    | .ipBlocked m =>
      if attempt < maxTries then
        let r := fetchLoop oracle maxTries rest (some m)
        (r.1, r.2 + 1)
      else (.rateLimitError rateLimitRaiseMsg, 1)
    | .requestBlocked m =>
      if attempt < maxTries then
        let r := fetchLoop oracle maxTries rest (some m)
        (r.1, r.2 + 1)
      else (.rateLimitError rateLimitRaiseMsg, 1)
    | .youtubeRequestFailed m =>
      if attempt < maxTries then
        let r := fetchLoop oracle maxTries rest (some m)
        (r.1, r.2 + 1)
      else (.runtimeError (failAfterMsg maxTries (some m)), 1)
    | .otherError m =>
      if attempt < maxTries then
        let r := fetchLoop oracle maxTries rest (some m)
        (r.1, r.2 + 1)
      else (.runtimeError (failAfterMsg maxTries (some m)), 1)

/-- `fetch_with_retry` (app.py lines 184-229): run the loop over
attempts `1 .. max_tries`. -/
def fetch_with_retry (oracle : Nat → FetchOutcome) (maxTries : Nat) :
    FetchResult × Nat :=
  fetchLoop oracle maxTries (List.range' 1 maxTries) none


/-! ## Caches, global state and the Pipeline Orchestrator
(app.py lines 46-53, 99-133, 384-462)

The file-based positive cache (`/tmp/yt_caps_cache/<id>.json`) is
modelled as a map from video id to `(text, lang)`; the in-memory
negative cache `FAILED_TRANSCRIPT_CACHE` as a map from video id to
`(expires, message)`; the module-level `FACTCHECK_LOCK` as a boolean;
the number of physical captions requests (`mark_youtube_request`
calls) as a counter.  `time.time()` is an explicit integer parameter
(seconds); the small real-time drift during one run is abstracted to a
single timestamp, and the one division that occurs
(`YOUTUBE_FAILURE_TTL / 2`) is exact. -/

def YOUTUBE_FAILURE_TTL : Int := 900

def YOUTUBE_TRANSCRIPT_MISS_TTL : Int := 1800

structure AppState where
  cache : String → Option (String × Option String)
  failures : String → Option (Int × String)
  lockHeld : Bool
  ytRequests : Nat

def initState : AppState :=
  { cache := fun _ => none, failures := fun _ => none
    lockHeld := false, ytRequests := 0 }

/-- `mark_transcript_failure` (app.py lines 120-122): store
`(now + ttl, message)` under the video id; a `None` ttl means the
default `YOUTUBE_FAILURE_TTL`. -/
def mark_transcript_failure (st : AppState) (vid msg : String) (ttl : Option Int)
    (now : Int) : AppState :=
  { st with failures := fun v =>
      if v = vid then some (now + ttl.getD YOUTUBE_FAILURE_TTL, msg)
      else st.failures v }

/-- `clear_transcript_failure` (app.py lines 123-124). -/
def clear_transcript_failure (st : AppState) (vid : String) : AppState :=
  { st with failures := fun v => if v = vid then none else st.failures v }

/-- `get_recent_transcript_failure` (app.py lines 125-133): lazy
expiry — an entry whose expiry lies strictly in the past is deleted
and reported as absent; otherwise the stored message is returned. -/
def get_recent_transcript_failure (st : AppState) (vid : String) (now : Int) :
    Option String × AppState :=
  match st.failures vid with
  | none => (none, st)
  | some (expires, msg) =>
    if expires < now then (none, clear_transcript_failure st vid)
    else (some msg, st)

/-- `get_cached_transcript` (app.py lines 102-111), on the map model
of the cache directory. -/
def get_cached_transcript (st : AppState) (vid : String) :
    Option String × Option String :=
  match st.cache vid with
  | none => (none, none)
  | some (text, lang) => (some text, lang)

/-- `set_cached_transcript` (app.py lines 113-118). -/
def set_cached_transcript (st : AppState) (vid text : String)
    (lang : Option String) : AppState :=
  { st with cache := fun v => if v = vid then some (text, lang) else st.cache v }

/-- Python `x or default` for an optional string: `None` and `""` are
falsy. -/
def pyOr (o : Option String) (d : String) : String :=
  match o with
  | some s => if s = "" then d else s
  | none => d

/-- One fact row as produced by `openai_facts`. -/
structure FactRow where
  claim : String
  verdict : String
  sources : List String
deriving Repr, DecidableEq

/-- The row dictionaries built for the Dash table (app.py lines 419
and 455): claim, verdict, newline-joined sources. -/
def rowsOf (facts : List FactRow) : List (String × String × String) :=
  facts.map fun x => (x.claim, x.verdict, String.intercalate "\n" x.sources)

/-- Outcome of one `run_pipeline` call: either the returned 4-tuple
(status, caption info, warning, table rows) or an exception that
propagates to the caller. -/
inductive RunResult
  | returned (status caption warning : String)
      (rows : List (String × String × String))
  | raised (exn : String)
deriving Repr, DecidableEq

def lockedBusyMsg : String := "Bitte warten – ein anderer Auftrag läuft bereits."

def rateLimitFallbackMsg : String := "YouTube hat den Abruf stark gedrosselt."

def throttledRetryLaterMsg : String :=
  "YouTube hat den Abruf gedrosselt. Bitte später erneut versuchen oder anderes Video testen."

/-- The Python `ValueError` raised at app.py line 427: `text, lang =
fetch_with_retry(video_id)` unpacks the 3-tuple returned at lines
196/198/200 into two names. -/
def unpackValueError : String := "ValueError: too many values to unpack (expected 2)"

/-- The part of `run_pipeline` after the failure-cache check (app.py
lines 425-459): the guarded captions fetch.  `fetch_with_retry` is
called with its default `max_tries = 3`.  A `RateLimitError` is caught
at line 428 (failure cached with the full TTL), any other
`RuntimeError` at line 433 (failure cached with half the TTL).  When
`fetch_with_retry` returns normally — with text, or with the
no-transcript message — the tuple unpacking at line 427 raises
`ValueError`, so lines 439-459 (the no-captions message, the cache
write and the OK return) are unreachable. -/
def run_pipeline_fetch (vid : String) (now : Int)
    (ytOracle : Nat → FetchOutcome) (st : AppState) : RunResult × AppState :=
  let fr := fetch_with_retry ytOracle 3
  let st1 := { st with ytRequests := st.ytRequests + fr.2 }
  match fr.1 with
  | .rateLimitError m =>
    let message := if m = "" then rateLimitFallbackMsg else m
    (.returned "" "" message [],
     mark_transcript_failure st1 vid message (some YOUTUBE_FAILURE_TTL) now)
  | .runtimeError _ =>
    (.returned "" "" throttledRetryLaterMsg [],
     mark_transcript_failure st1 vid throttledRetryLaterMsg
       (some (YOUTUBE_FAILURE_TTL / 2)) now)
  | .ok _ _ _ => (.raised unpackValueError, st1)

/-- The body of `run_pipeline` inside the `try` (app.py lines
399-459): validation, credential check, id extraction, positive-cache
lookup, negative-cache lookup, then the fetch. -/
def run_pipeline_body (url : String) (now : Int) (hasKey : Bool)
    (ytOracle : Nat → FetchOutcome)
    (factsOracle : String → String → Except String (List FactRow))
    (st : AppState) : RunResult × AppState :=
  if url = "" || !is_valid_youtube_url url then
    (.returned "❌ Keine gültige YouTube‑URL." "" "" [], st)
  else if !hasKey then
    (.returned "⚠️ OPENAI_API_KEY fehlt." "" "" [], st)
  else
    match get_video_id url with
    | .error e => (.raised e, st)
    | .ok vidOpt =>
      if (vidOpt.getD "") = "" then
        (.returned "❌ Konnte Video‑ID nicht ermitteln." "" "" [], st)
      else
        let vid := vidOpt.getD ""
        let cached := get_cached_transcript st vid
        if (cached.1.getD "") ≠ "" then
          let ctext := cached.1.getD ""
          let clang := cached.2
          let st1 := clear_transcript_failure st vid
          match factsOracle ctext (pyOr clang "de") with
          | .error e => (.raised e, st1)
          | .ok facts =>
            (.returned "Faktenprüfung abgeschlossen (aus Cache)."
              ("Untertitel (Cache) – Sprache: " ++ pyOr clang "de/en" ++ ".")
              "" (rowsOf facts), st1)
        else
          let rf := get_recent_transcript_failure st vid now
          if (rf.1.getD "") ≠ "" then
            (.returned "" "" (rf.1.getD "") [], rf.2)
          else
            run_pipeline_fetch vid now ytOracle rf.2

/-- `run_pipeline` (app.py lines 394-462).  The non-blocking lock
acquisition at line 396 returns the busy tuple when the lock is held;
otherwise the body runs and the `finally` at line 461 releases the
lock on every exit path, including a propagating exception. -/
def run_pipeline (url : String) (now : Int) (hasKey : Bool)
    (ytOracle : Nat → FetchOutcome)
    (factsOracle : String → String → Except String (List FactRow))
    (st : AppState) : RunResult × AppState :=
  if st.lockHeld then
    (.returned lockedBusyMsg "" "" [], st)
  else
    let r := run_pipeline_body url now hasKey ytOracle factsOracle
      { st with lockHeld := true }
    (r.1, { r.2 with lockHeld := false })


/-! ## Definitions written from the claims (for C3 and C4) -/

/-- The four accepted URL shapes exactly as the claim words them: exact
path `/watch` with query id of length > 5; exact path `/shorts/<id>` or
`/live/<id>` with id length ≥ 5; short-link host with exactly one path
segment of length ≥ 5.  Written from the claim, for comparison with
`is_valid_youtube_url`. -/
def claimValidShape (url : String) : Bool :=
  match urlparse url with
  | .error _ => false
  | .ok p =>
    let host := strToLower p.netloc
    let segs := (strSplitOnChar '/' p.path).filter (· ≠ "")
    let vs := parse_qs_get p.query "v"
    (p.scheme == "http" || p.scheme == "https") &&
    ((strContains "youtube.com" host &&
       ((p.path == "/watch" && !vs.isEmpty && decide ((vs.headD "").length > 5))
        || (match segs with
            | [kind, vid] => (kind == "shorts" || kind == "live") && decide (vid.length ≥ 5)
            | _ => false)))
     || (strContains "youtu.be" host &&
          (match segs with
           | [vid] => decide (vid.length ≥ 5)
           | _ => false)))

/-- The watch rule as the code applies it: path merely begins with
`/watch`, and the first `v` query value has length > 5. -/
def watchRuleAmended (p : UrlParts) : Bool :=
  strStartsWith p.path "/watch" &&
  !(parse_qs_get p.query "v").isEmpty &&
  decide (((parse_qs_get p.query "v").headD "").length > 5)

/-- The shorts rule as the code applies it: path begins with
`/shorts/` and the third `/`-segment has length ≥ 5 (extra trailing
segments are permitted). -/
def shortsRuleAmended (p : UrlParts) : Bool :=
  strStartsWith p.path "/shorts/" &&
  decide (((strSplitOnChar '/' p.path).getD 2 "").length ≥ 5)

/-- The live rule as the code applies it, analogous to
`shortsRuleAmended`. -/
def liveRuleAmended (p : UrlParts) : Bool :=
  strStartsWith p.path "/live/" &&
  decide (((strSplitOnChar '/' p.path).getD 2 "").length ≥ 5)

/-- The short-link rule: host containing `youtu.be`, exactly one
nonempty path segment of length ≥ 5. -/
def shortLinkRuleAmended (p : UrlParts) : Bool :=
  decide (((strSplitOnChar '/' p.path).filter (· ≠ "")).length = 1) &&
  decide ((((strSplitOnChar '/' p.path).filter (· ≠ "")).headD "").length ≥ 5)

/-- The amended validation predicate: http/https scheme; a host
*containing* `youtube.com` is accepted by the watch rule when the path
begins with `/watch`, and otherwise by the shorts or live rule;
any other host containing `youtu.be` is accepted by the short-link
rule; everything else (including the empty string and parse errors) is
rejected. -/
def validAmended (url : String) : Bool :=
  url ≠ "" &&
  match urlparse url with
  | .error _ => false
  | .ok p =>
    (p.scheme == "http" || p.scheme == "https") &&
    (if strContains "youtube.com" (strToLower p.netloc) then
       if strStartsWith p.path "/watch" then watchRuleAmended p
       else shortsRuleAmended p || liveRuleAmended p
     else strContains "youtu.be" (strToLower p.netloc) && shortLinkRuleAmended p)

/-- Does the embedded Python call return normally (no exception)? -/
def exceptOk {α : Type} (e : Except String α) : Bool :=
  match e with
  | .ok _ => true
  | .error _ => false

/-! ## Sanity checks of the embedding on concrete inputs -/

example : is_valid_youtube_url "https://www.youtube.com/watch?v=ABCDEFGHIJK" = true := by decide
example : is_valid_youtube_url "https://youtu.be/xyz123" = true := by decide
example : is_valid_youtube_url "https://www.youtube.com/shorts/abcde" = true := by decide
example : is_valid_youtube_url "https://www.youtube.com/live/abcde" = true := by decide
example : is_valid_youtube_url "not-a-url" = false := by decide
example : is_valid_youtube_url "ftp://www.youtube.com/watch?v=ABCDEFG" = false := by decide
example : is_valid_youtube_url "https://www.youtube.com/watch?v=abc" = false := by decide
example : is_valid_youtube_url "https://www.youtube.com/watchx?v=ABCDEFG" = true := by decide
example : get_video_id "https://www.youtube.com/watch?v=ABCDEFGHIJK" = .ok (some "ABCDEFGHIJK") := by decide
example : get_video_id "https://youtu.be/xyz123" = .ok (some "xyz123") := by decide
example : get_video_id "https://[x" = .error "Invalid IPv6 URL" := by decide
example : get_video_id "https://example.com/a" = .ok none := by decide

example :
    fetch_with_retry (fun _ => .success ["Die", "Erde ist rund."]) 3
      = (.ok (some "Die Erde ist rund.") none none, 1) := by decide
example :
    fetch_with_retry (fun _ => .ipBlocked "blocked") 3
      = (.rateLimitError rateLimitRaiseMsg, 3) := by decide
example :
    fetch_with_retry (fun _ => .noTranscriptFound "nope") 3
      = (.ok none none (some "NoTranscriptFound: nope"), 1) := by decide
example :
    fetch_with_retry (fun _ => .youtubeRequestFailed "503") 3
      = (.runtimeError (failAfterMsg 3 (some "503")), 3) := by decide
example :
    fetch_with_retry (fun _ => .success ["", "  "]) 3
      = (.ok none none (some noTranscriptDeliveredMsg), 1) := by decide

example :
    (run_pipeline "not-a-url" 0 true (fun _ => .otherError "x")
      (fun _ _ => .ok []) initState).1
      = .returned "❌ Keine gültige YouTube‑URL." "" "" [] := by decide

example :
    (run_pipeline "https://www.youtube.com/watch?v=ABCDEFGHIJK" 0 true
      (fun _ => .success ["Die Erde ist rund."]) (fun _ _ => .ok []) initState).1
      = .raised unpackValueError := by decide

example :
    (run_pipeline "https://www.youtube.com/watch?v=ABCDEFGHIJK" 0 true
      (fun _ => .ipBlocked "blocked") (fun _ _ => .ok []) initState).1
      = .returned "" "" rateLimitRaiseMsg [] := by decide

example :
    (run_pipeline "https://www.youtube.com/watch?v=ABCDEFGHIJK" 0 true
      (fun _ => .ipBlocked "blocked") (fun _ _ => .ok []) initState).2.failures
        "ABCDEFGHIJK" = some (900, rateLimitRaiseMsg) := by decide

/-! ## C3: URL validation against the four claimed shapes -/

/-- C3 counterexample: `is_valid_youtube_url` accepts
`https://www.youtube.com/watchx?v=ABCDEFG`, whose path `/watchx` is not
one of the four shapes of the claim (its `/watch` test is a prefix
test), so "for every other URL it returns false" fails. -/
theorem c3_counterexample :
    is_valid_youtube_url "https://www.youtube.com/watchx?v=ABCDEFG" = true ∧
    claimValidShape "https://www.youtube.com/watchx?v=ABCDEFG" = false := by
  exact ⟨by decide, by decide⟩

theorem string_beq_eq_decide (a b : String) : (a == b) = decide (a = b) := by
  by_cases h : a = b <;> simp [h]

/-- C3 amended: `is_valid_youtube_url` accepts exactly the URLs of
`validAmended` — the claimed shapes with exact path matching relaxed
to the prefix/substring matching the code performs. -/
theorem c3_amended_validate_iff_shapes (url : String) :
    is_valid_youtube_url url = validAmended url := by
  unfold is_valid_youtube_url validAmended watchRuleAmended shortsRuleAmended
    liveRuleAmended shortLinkRuleAmended
  by_cases h0 : url = ""
  · simp [h0]
  · simp only [h0, if_false, ne_eq, not_false_eq_true, Bool.true_and]
    cases hp : urlparse url with
    | error e => simp
    | ok p =>
      cases hs : (p.scheme == "http" || p.scheme == "https") <;>
      cases hyt : strContains "youtube.com" (strToLower p.netloc) <;>
      cases hw : strStartsWith p.path "/watch" <;>
      cases hsh : strStartsWith p.path "/shorts/" <;>
      cases hl : strStartsWith p.path "/live/" <;>
      cases hbe : strContains "youtu.be" (strToLower p.netloc) <;>
        simp_all [string_beq_eq_decide]

/-! ## C4: purity and totality of the id extractor -/

/-- C4 counterexample: `get_video_id` has no `try/except`, so on
`https://[x` — a malformed URL whose netloc has an unbalanced
bracket — `urlparse` raises `ValueError` and `get_video_id` propagates
it instead of returning `None`. -/
theorem c4_counterexample :
    get_video_id "https://[x" = .error "Invalid IPv6 URL" := by decide

/-- C4 amended: `get_video_id` is a pure function of its argument (it
is a Lean function of the URL string alone), and it raises exactly
when `urlparse` itself raises; for every URL that `urlparse` parses it
returns an optional id without raising. -/
theorem c4_amended_raises_iff_urlparse_raises (url : String) :
    exceptOk (get_video_id url) = exceptOk (urlparse url) := by
  unfold get_video_id
  cases hp : urlparse url with
  | error e => rfl
  | ok p =>
    simp only []
    split
    · rfl
    · split
      · rfl
      · split
        · rfl
        · split <;> rfl

/-! ## C5: retry cap and immediate termination on NO_TRANSCRIPT -/

theorem fetchLoop_requests_le_length (oracle : Nat → FetchOutcome) (maxTries : Nat) :
    ∀ (l : List Nat) (lastErr : Option String),
      (fetchLoop oracle maxTries l lastErr).2 ≤ l.length := by
  intro l
  induction l with
  | nil => intro lastErr; simp [fetchLoop]
  | cons a t ih =>
    intro lastErr
    simp only [fetchLoop, List.length_cons]
    cases oracle a <;> simp only []
    case success chunks =>
      split <;> simp
    all_goals
      first
      | (split
         · exact Nat.succ_le_succ (ih _)
         · simp)
      | simp

/-- C5: within one job the fetcher makes at most `max_tries` physical
requests, and an attempt whose response is classified NO_TRANSCRIPT
(`NoTranscriptFound`, `TranscriptsDisabled`, or an empty transcript)
ends the loop at once — exactly one request from that attempt on, with
a terminal no-transcript return and no retry. -/
theorem c5_retry_cap_and_no_transcript_terminal (oracle : Nat → FetchOutcome)
    (maxTries : Nat) :
    (fetch_with_retry oracle maxTries).2 ≤ maxTries ∧
    ∀ (attempt : Nat) (rest : List Nat) (lastErr : Option String),
      classifiedNoTranscript (oracle attempt) = true →
      (fetchLoop oracle maxTries (attempt :: rest) lastErr).2 = 1 ∧
      ∃ m, (fetchLoop oracle maxTries (attempt :: rest) lastErr).1
            = .ok none none (some m) := by
  constructor
  · have h := fetchLoop_requests_le_length oracle maxTries (List.range' 1 maxTries) none
    simpa [fetch_with_retry] using h
  · intro attempt rest lastErr hnt
    simp only [fetchLoop]
    cases ho : oracle attempt <;> simp_all [classifiedNoTranscript]

theorem c5_witness :
    (fetch_with_retry (fun _ => .transcriptsDisabled "deaktiviert") 3).2 ≤ 3 ∧
    (fetchLoop (fun _ => .transcriptsDisabled "deaktiviert") 3 [1, 2, 3] none).2 = 1 ∧
    ∃ m, (fetchLoop (fun _ => .transcriptsDisabled "deaktiviert") 3 [1, 2, 3] none).1
          = .ok none none (some m) :=
  ⟨(c5_retry_cap_and_no_transcript_terminal (fun _ => .transcriptsDisabled "deaktiviert") 3).1,
   ((c5_retry_cap_and_no_transcript_terminal (fun _ => .transcriptsDisabled "deaktiviert") 3).2
      1 [2, 3] none (by decide)).1,
   ((c5_retry_cap_and_no_transcript_terminal (fun _ => .transcriptsDisabled "deaktiviert") 3).2
      1 [2, 3] none (by decide)).2⟩

/-! ## C7: negative-cache TTL with lazy expiry -/

/-- C7: after `mark_transcript_failure(videoId, message, ttl=T)` at
time `t0`, a lookup at any time up to `t0 + T` returns the message and
leaves the entry in place, and a lookup at any later time returns
`none` and deletes the entry (lazy expiry). -/
theorem c7_negative_cache_ttl (st : AppState) (vid msg : String) (T t0 t : Int) :
    (t ≤ t0 + T →
      get_recent_transcript_failure (mark_transcript_failure st vid msg (some T) t0) vid t
        = (some msg, mark_transcript_failure st vid msg (some T) t0)) ∧
    (t0 + T < t →
      get_recent_transcript_failure (mark_transcript_failure st vid msg (some T) t0) vid t
        = (none,
           clear_transcript_failure (mark_transcript_failure st vid msg (some T) t0) vid)) := by
  constructor <;> intro h <;>
    simp [get_recent_transcript_failure, mark_transcript_failure, h, not_lt.mpr h]

theorem c7_witness :
    get_recent_transcript_failure (mark_transcript_failure initState "v1" "down" (some 10) 0) "v1" 10
      = (some "down", mark_transcript_failure initState "v1" "down" (some 10) 0) ∧
    get_recent_transcript_failure (mark_transcript_failure initState "v1" "down" (some 10) 0) "v1" 11
      = (none,
         clear_transcript_failure (mark_transcript_failure initState "v1" "down" (some 10) 0) "v1") :=
  ⟨(c7_negative_cache_ttl initState "v1" "down" 10 0 10).1 (by decide),
   (c7_negative_cache_ttl initState "v1" "down" 10 0 11).2 (by decide)⟩

/-! ## C9: single-flight serialization -/

/-- C9: when the single-flight lock is already held, `run_pipeline`
returns the busy tuple immediately and changes nothing (in particular
it performs no captions request and touches no cache); when the lock
is free, the `finally` releases it on every exit path — normal returns
and propagating exceptions alike — so a later invocation can proceed. -/
theorem c9_single_flight (url : String) (now : Int) (hasKey : Bool)
    (ytOracle : Nat → FetchOutcome)
    (factsOracle : String → String → Except String (List FactRow))
    (st : AppState) :
    run_pipeline url now hasKey ytOracle factsOracle { st with lockHeld := true }
      = (.returned lockedBusyMsg "" "" [], { st with lockHeld := true }) ∧
    (run_pipeline url now hasKey ytOracle factsOracle { st with lockHeld := false }).2.lockHeld
      = false := by
  constructor
  · rfl
  · simp [run_pipeline]

/-! ## C1 / C2: the tuple-unpacking crash on every normal fetcher return -/

/-- C1: `run_pipeline` does *not* return exactly one result on every
path.  On a fresh state with a valid URL, when the caption fetcher
returns normally — whether with non-empty text (first conjunct) or
with the no-transcript report (second and third conjunct) — the
assignment `text, lang = fetch_with_retry(video_id)` at app.py line
427 unpacks the returned 3-tuple into two names and raises
`ValueError`, which no surrounding `except` catches, so the exception
propagates to the caller instead of a `PipelineResult`. -/
theorem c1_unpack_valueerror_escapes :
    (run_pipeline "https://www.youtube.com/watch?v=VIDVIDVID01" 0 true
        (fun _ => .success ["Hallo Welt"]) (fun _ _ => .ok []) initState).1
      = .raised unpackValueError ∧
    (run_pipeline "https://www.youtube.com/watch?v=VIDVIDVID01" 0 true
        (fun _ => .noTranscriptFound "kein Transkript") (fun _ _ => .ok []) initState).1
      = .raised unpackValueError ∧
    (run_pipeline "https://www.youtube.com/watch?v=VIDVIDVID01" 0 true
        (fun _ => .success [""]) (fun _ _ => .ok []) initState).1
      = .raised unpackValueError :=
  ⟨by decide, by decide, by decide⟩

/-- C2: the scenario fails on the code.  For
`https://www.youtube.com/watch?v=ABCDEFGHIJK` with the captions
service returning the German text "Die Erde ist rund.", `run_pipeline`
does not return OK with language "de": the fetcher's 3-tuple is
unpacked into two names (app.py line 427), the resulting `ValueError`
propagates, no cache record is written, and only the lock release
(`finally`) still happens.  (Independently, `fetch_captions_once`
returns `None` as the language, so "de" could never be produced.) -/
theorem c2_german_scenario_crashes :
    (run_pipeline "https://www.youtube.com/watch?v=ABCDEFGHIJK" 0 true
        (fun _ => .success ["Die Erde ist rund."]) (fun _ _ => .ok []) initState).1
      = .raised unpackValueError ∧
    (run_pipeline "https://www.youtube.com/watch?v=ABCDEFGHIJK" 0 true
        (fun _ => .success ["Die Erde ist rund."]) (fun _ _ => .ok []) initState).2.cache
        "ABCDEFGHIJK" = none ∧
    (run_pipeline "https://www.youtube.com/watch?v=ABCDEFGHIJK" 0 true
        (fun _ => .success ["Die Erde ist rund."]) (fun _ _ => .ok []) initState).2.lockHeld
      = false ∧
    (fetch_with_retry (fun _ => .success ["Die Erde ist rund."]) 3).1
      = .ok (some "Die Erde ist rund.") none none :=
  ⟨by decide, by decide, by decide, by decide⟩

/-! ## C6: blocked on every attempt → RATE_LIMITED with ~15-minute TTL -/

theorem c6_url_valid :
    is_valid_youtube_url "https://www.youtube.com/watch?v=BLOCKEDVID99" = true := by decide

theorem c6_url_vid :
    get_video_id "https://www.youtube.com/watch?v=BLOCKEDVID99"
      = .ok (some "BLOCKEDVID99") := by decide

theorem c6_fetch_blocked :
    fetch_with_retry (fun _ => FetchOutcome.ipBlocked "blocked") 3
      = (.rateLimitError rateLimitRaiseMsg, 3) := by decide

/-- C6: when the captions service reports the blocked/automated-traffic
signal on every attempt, the pipeline makes exactly the maximum 3
requests, ends with the rate-limited outcome (the `RateLimitError`
message in the warning slot of the returned tuple), and records a
negative-cache entry for the videoId expiring `YOUTUBE_FAILURE_TTL`
(= 900 s = 15 minutes) after the failure time. -/
theorem c6_blocked_rate_limited (st : AppState) (now : Int)
    (h1 : st.lockHeld = false)
    (h2 : st.cache "BLOCKEDVID99" = none)
    (h3 : st.failures "BLOCKEDVID99" = none) :
    (run_pipeline "https://www.youtube.com/watch?v=BLOCKEDVID99" now true
        (fun _ => FetchOutcome.ipBlocked "blocked") (fun _ _ => .ok []) st).1
      = .returned "" "" rateLimitRaiseMsg [] ∧
    (run_pipeline "https://www.youtube.com/watch?v=BLOCKEDVID99" now true
        (fun _ => FetchOutcome.ipBlocked "blocked") (fun _ _ => .ok []) st).2.failures
        "BLOCKEDVID99"
      = some (now + YOUTUBE_FAILURE_TTL, rateLimitRaiseMsg) ∧
    (run_pipeline "https://www.youtube.com/watch?v=BLOCKEDVID99" now true
        (fun _ => FetchOutcome.ipBlocked "blocked") (fun _ _ => .ok []) st).2.ytRequests
      = st.ytRequests + 3 ∧
    YOUTUBE_FAILURE_TTL = 15 * 60 := by
  refine ⟨?_, ?_, ?_, by decide⟩ <;>
    simp [run_pipeline, run_pipeline_body, run_pipeline_fetch, get_cached_transcript,
      get_recent_transcript_failure, mark_transcript_failure, c6_url_valid, c6_url_vid,
      c6_fetch_blocked, h1, h2, h3, (by decide : ¬rateLimitRaiseMsg = "")]

theorem c6_witness :
    initState.lockHeld = false ∧
    (run_pipeline "https://www.youtube.com/watch?v=BLOCKEDVID99" 0 true
        (fun _ => FetchOutcome.ipBlocked "blocked") (fun _ _ => .ok []) initState).1
      = .returned "" "" rateLimitRaiseMsg [] ∧
    (run_pipeline "https://www.youtube.com/watch?v=BLOCKEDVID99" 0 true
        (fun _ => FetchOutcome.ipBlocked "blocked") (fun _ _ => .ok []) initState).2.failures
        "BLOCKEDVID99"
      = some (0 + YOUTUBE_FAILURE_TTL, rateLimitRaiseMsg) ∧
    (run_pipeline "https://www.youtube.com/watch?v=BLOCKEDVID99" 0 true
        (fun _ => FetchOutcome.ipBlocked "blocked") (fun _ _ => .ok []) initState).2.ytRequests
      = initState.ytRequests + 3 ∧
    YOUTUBE_FAILURE_TTL = 15 * 60 :=
  ⟨rfl, c6_blocked_rate_limited initState 0 rfl rfl rfl⟩

/-! ## C8: idempotence over the transcript cache -/

theorem c8_url_valid :
    is_valid_youtube_url "https://www.youtube.com/watch?v=CACHEDVID001" = true := by decide

theorem c8_url_vid :
    get_video_id "https://www.youtube.com/watch?v=CACHEDVID001"
      = .ok (some "CACHEDVID001") := by decide

/-- C8: for a videoId whose transcript is already in the positive
cache, running `run_pipeline` twice in sequence makes zero captions
requests on the second call (in fact on both calls) and the second
call returns exactly the same result as the first. -/
theorem c8_idempotent_on_cached (st : AppState) (text : String) (lang : Option String)
    (now : Int) (ytOracle : Nat → FetchOutcome)
    (factsOracle : String → String → Except String (List FactRow))
    (h1 : st.lockHeld = false)
    (h2 : st.cache "CACHEDVID001" = some (text, lang))
    (h3 : text ≠ "") :
    (run_pipeline "https://www.youtube.com/watch?v=CACHEDVID001" now true ytOracle factsOracle
        (run_pipeline "https://www.youtube.com/watch?v=CACHEDVID001" now true ytOracle
          factsOracle st).2).1
      = (run_pipeline "https://www.youtube.com/watch?v=CACHEDVID001" now true ytOracle
          factsOracle st).1 ∧
    (run_pipeline "https://www.youtube.com/watch?v=CACHEDVID001" now true ytOracle factsOracle
        (run_pipeline "https://www.youtube.com/watch?v=CACHEDVID001" now true ytOracle
          factsOracle st).2).2.ytRequests
      = st.ytRequests := by
  cases hf : factsOracle text (pyOr lang "de") <;>
    constructor <;>
      simp [run_pipeline, run_pipeline_body, get_cached_transcript,
        clear_transcript_failure, c8_url_valid, c8_url_vid, h1, h2, h3, hf]

theorem c8_witness :
    ({ initState with
        cache := fun v => if v = "CACHEDVID001" then some ("Hallo Welt", some "de") else none
      } : AppState).lockHeld = false ∧
    (run_pipeline "https://www.youtube.com/watch?v=CACHEDVID001" 0 true
        (fun _ => FetchOutcome.otherError "net") (fun _ _ => .ok [])
        (run_pipeline "https://www.youtube.com/watch?v=CACHEDVID001" 0 true
          (fun _ => FetchOutcome.otherError "net") (fun _ _ => .ok [])
          { initState with
            cache := fun v => if v = "CACHEDVID001" then some ("Hallo Welt", some "de") else none
          }).2).1
      = (run_pipeline "https://www.youtube.com/watch?v=CACHEDVID001" 0 true
          (fun _ => FetchOutcome.otherError "net") (fun _ _ => .ok [])
          { initState with
            cache := fun v => if v = "CACHEDVID001" then some ("Hallo Welt", some "de") else none
          }).1 ∧
    (run_pipeline "https://www.youtube.com/watch?v=CACHEDVID001" 0 true
        (fun _ => FetchOutcome.otherError "net") (fun _ _ => .ok [])
        (run_pipeline "https://www.youtube.com/watch?v=CACHEDVID001" 0 true
          (fun _ => FetchOutcome.otherError "net") (fun _ _ => .ok [])
          { initState with
            cache := fun v => if v = "CACHEDVID001" then some ("Hallo Welt", some "de") else none
          }).2).2.ytRequests
      = ({ initState with
            cache := fun v => if v = "CACHEDVID001" then some ("Hallo Welt", some "de") else none
          } : AppState).ytRequests :=
  ⟨rfl,
   c8_idempotent_on_cached
     { initState with
       cache := fun v => if v = "CACHEDVID001" then some ("Hallo Welt", some "de") else none }
     "Hallo Welt" (some "de") 0 (fun _ => FetchOutcome.otherError "net") (fun _ _ => .ok [])
     rfl (by simp) (by decide)⟩

/-! ## C10: the language of a fetched transcript is never determined -/

theorem c10_url_valid :
    is_valid_youtube_url "https://www.youtube.com/watch?v=NULLLANGVID1" = true := by decide

theorem c10_url_vid :
    get_video_id "https://www.youtube.com/watch?v=NULLLANGVID1"
      = .ok (some "NULLLANGVID1") := by decide

/-- C10: `fetch_captions_once` returns `None` as the language code, so
every successful return of the caption fetcher carries language `none`
(first conjunct) — hence any transcript record the pipeline could
write carries a null languageCode — and for a cached record with null
language the user-visible caption line falls back to the default hint
"de/en" (second conjunct). -/
theorem c10_language_none_and_default_hint :
    (∀ (oracle : Nat → FetchOutcome) (maxTries : Nat) (l : List Nat)
        (lastErr : Option String) (t : Option String) (lang msg : Option String),
        (fetchLoop oracle maxTries l lastErr).1 = .ok t lang msg → lang = none) ∧
    (∀ (st : AppState) (now : Int) (ytOracle : Nat → FetchOutcome)
        (factsOracle : String → String → Except String (List FactRow))
        (text : String) (fs : List FactRow),
        st.lockHeld = false →
        st.cache "NULLLANGVID1" = some (text, none) →
        text ≠ "" →
        factsOracle text "de" = .ok fs →
        (run_pipeline "https://www.youtube.com/watch?v=NULLLANGVID1" now true
            ytOracle factsOracle st).1
          = .returned "Faktenprüfung abgeschlossen (aus Cache)."
              "Untertitel (Cache) – Sprache: de/en." "" (rowsOf fs)) := by
  constructor
  · intro oracle maxTries l
    induction l with
    | nil => intro lastErr t lang msg h; simp [fetchLoop] at h
    | cons a rest ih =>
      intro lastErr t lang msg h
      simp only [fetchLoop] at h
      cases ho : oracle a <;> rw [ho] at h <;> dsimp only at h
      case success chunks =>
        split at h <;> exact ((FetchResult.ok.inj h).2.1).symm
      case noTranscriptFound m => exact ((FetchResult.ok.inj h).2.1).symm
      case transcriptsDisabled m => exact ((FetchResult.ok.inj h).2.1).symm
      case ipBlocked m =>
        split at h
        · exact ih _ t lang msg h
        · exact absurd h (by simp)
      case requestBlocked m =>
        split at h
        · exact ih _ t lang msg h
        · exact absurd h (by simp)
      case youtubeRequestFailed m =>
        split at h
        · exact ih _ t lang msg h
        · exact absurd h (by simp)
      case otherError m =>
        split at h
        · exact ih _ t lang msg h
        · exact absurd h (by simp)
  · intro st now ytOracle factsOracle text fs h1 h2 h3 hf
    simp [run_pipeline, run_pipeline_body, get_cached_transcript, clear_transcript_failure,
      pyOr, c10_url_valid, c10_url_vid, h1, h2, h3, hf]

theorem c10_witness :
    ((none : Option String) = none) ∧
    (run_pipeline "https://www.youtube.com/watch?v=NULLLANGVID1" 0 true
        (fun _ => FetchOutcome.otherError "net") (fun _ _ => .ok [])
        { initState with
          cache := fun v => if v = "NULLLANGVID1" then some ("Guten Tag", none) else none }).1
      = .returned "Faktenprüfung abgeschlossen (aus Cache)."
          "Untertitel (Cache) – Sprache: de/en." "" (rowsOf []) :=
  ⟨c10_language_none_and_default_hint.1 (fun _ => FetchOutcome.success ["Guten Tag"]) 3
      [1, 2, 3] none (some "Guten Tag") none none (by decide),
   c10_language_none_and_default_hint.2
     { initState with
       cache := fun v => if v = "NULLLANGVID1" then some ("Guten Tag", none) else none }
     0 (fun _ => FetchOutcome.otherError "net") (fun _ _ => .ok []) "Guten Tag" []
     rfl (by simp) (by decide) rfl⟩
